import Mathlib

/-!
Shallow embedding of the OSMnx routing service (`src/routing-service/main.py`).

Modelling conventions:
* Python floats are modelled as real numbers; `round(x, n)` is modelled as
  rounding `x * 10^n` to the nearest integer (ties at half are not exercised
  by any statement below).
* The external collaborators (graph provider, nearest-node lookup,
  shortest-path primitive, edge-attribute summation) are parameters of the
  embedding: the service consults them only through their results, which the
  source code inspects via return values and caught exceptions.  Each
  parameter's result type mirrors the distinct signals the source code
  distinguishes (normal return, `None` return, `networkx.NetworkXNoPath`,
  `KeyError`, any other exception).
* A `GraphRegion` is an opaque handle: the source never inspects a graph
  except through the external primitives above.
* The two cache tiers (`graph_cache` / `disk_cache`) are association lists
  inside an explicit `CacheState`; the `calls` field counts provider
  invocations (instrumentation used to state the build-once questions).
-/

namespace RoutingService

noncomputable section

open Real

/-- Model of `Coordinates` (`class Coordinates(BaseModel)`): a latitude and a
longitude, as real numbers. -/
structure Coordinates where
  lat : ℝ
  lng : ℝ

/-- The pydantic range validation on `Coordinates` (`ge=-90, le=90` for
latitude, `ge=-180, le=180` for longitude). -/
def Coordinates.valid (c : Coordinates) : Prop :=
  -90 ≤ c.lat ∧ c.lat ≤ 90 ∧ -180 ≤ c.lng ∧ c.lng ≤ 180

/-- Model of `RouteRequest`: origin, destination and a travel-mode string. -/
structure RouteRequest where
  origin : Coordinates
  destination : Coordinates
  mode : String

/-- The pydantic `Literal["drive", "walk", "bike"]` annotation on
`RouteRequest.mode`: a request whose mode is not one of the three literals
fails validation and is rejected before reaching the endpoint body. -/
def mode_ok (m : String) : Bool :=
  if m = "drive" then true
  else if m = "walk" then true
  else if m = "bike" then true
  else false

/-- Model of `RouteResponse` with the source's field defaults. -/
structure RouteResponse where
  distance_km : ℝ
  duration_minutes : ℝ
  mode : String
  path_coordinates : Option (List (ℝ × ℝ)) := none
  success : Bool := true
  error : Option String := none

/-- Model of `BatchRouteResponse`. -/
structure BatchRouteResponse where
  routes : List RouteResponse
  total_distance_km : ℝ
  total_duration_minutes : ℝ

/-- Opaque handle for a routable street-network graph (`GraphRegion`).  The
service consults a graph only through the external primitives, so only the
handle's identity matters to the embedded logic. -/
structure GraphRegion where
  id : ℕ
deriving DecidableEq

/-- Python's `round` to `n = 0` decimals, on reals: nearest integer. -/
def pyround (x : ℝ) : ℤ := round x

/-- Model of `round(x, 2)` as a real number. -/
def round2 (x : ℝ) : ℝ := ((pyround (x * 100) : ℤ) : ℝ) / 100

/-- Model of `round(x, 1)` as a real number. -/
def round1 (x : ℝ) : ℝ := ((pyround (x * 10) : ℤ) : ℝ) / 10

/-- Python's `int(x)` on a float: truncation toward zero. -/
def float_to_int (x : ℝ) : ℤ := if 0 ≤ x then ⌊x⌋ else ⌈x⌉

/-- Model of `get_network_type`: `mapping.get(mode, "drive")` over the source's
mode → network-type dictionary. -/
def get_network_type (mode : String) : String :=
  if mode = "drive" then "drive"
  else if mode = "walk" then "walk"
  else if mode = "bike" then "bike"
  else "drive"

/-- Model of `get_speed_kmh`: `speeds.get(mode, 40)` over the source's
mode → average-speed dictionary. -/
def get_speed_kmh (mode : String) : ℝ :=
  if mode = "drive" then 40
  else if mode = "walk" then 5
  else if mode = "bike" then 15
  else 40

/-- Model of `math.radians`: degrees to radians. -/
def radians (d : ℝ) : ℝ := d * Real.pi / 180

/-- Model of `math.atan2 y x` (two-argument arctangent, C convention). -/
def atan2 (y x : ℝ) : ℝ :=
  if 0 < x then Real.arctan (y / x)
  else if x < 0 then
    (if 0 ≤ y then Real.arctan (y / x) + Real.pi else Real.arctan (y / x) - Real.pi)
  else if 0 < y then Real.pi / 2
  else if y < 0 then -(Real.pi / 2)
  else 0

/-- The `a` intermediate of `haversine_distance`:
`sin(dlat/2)**2 + cos(lat1) * cos(lat2) * sin(dlng/2)**2` after converting
all four coordinates to radians. -/
def hav_a (origin destination : Coordinates) : ℝ :=
  Real.sin ((radians destination.lat - radians origin.lat) / 2) ^ 2 +
    Real.cos (radians origin.lat) * Real.cos (radians destination.lat) *
      Real.sin ((radians destination.lng - radians origin.lng) / 2) ^ 2

/-- Model of `haversine_distance`: great-circle distance in km with Earth radius
6371, `R * (2 * atan2(sqrt(a), sqrt(1 - a)))`. -/
def haversine_distance (origin destination : Coordinates) : ℝ :=
  6371 * (2 * atan2 (Real.sqrt (hav_a origin destination))
    (Real.sqrt (1 - hav_a origin destination)))

/-- Cache key tuple for `get_graph_key`.  The source builds the f-string
`f"{round(lat, 2)}_{round(lng, 2)}_{mode}_{dist}"`; two such strings are
equal exactly when the four components are equal (the three mode literals
contain no underscore), so the key is modelled as the component tuple, with
the 2-decimal-rounded coordinate represented by its integer number of
hundredths of a degree. -/
def CacheKey : Type := ℤ × ℤ × String × ℤ

instance : DecidableEq CacheKey := by
  unfold CacheKey
  infer_instance

/-- Model of `get_graph_key(lat, lng, mode, dist)`. -/
def get_graph_key (lat lng : ℝ) (mode : String) (dist : ℤ) : CacheKey :=
  (pyround (lat * 100), pyround (lng * 100), mode, dist)

/-- The two cache tiers (`graph_cache`, `disk_cache`) as association lists,
plus an instrumentation counter of provider invocations. -/
structure CacheState where
  mem : List (CacheKey × GraphRegion)
  disk : List (CacheKey × GraphRegion)
  calls : ℕ

/-- Association-list lookup (`key in cache` / `cache[key]`). -/
def alookup (k : CacheKey) : List (CacheKey × GraphRegion) → Option GraphRegion
  | [] => none
  | (k', g) :: rest => if k' = k then some g else alookup k rest

/-- The external graph provider: the composite of `ox.graph_from_point`,
`ox.speed.add_edge_speeds` and `ox.speed.add_edge_travel_times` for
`(lat, lng, network_type, dist)`, which either yields an annotated graph or
raises (modelled as `Except.error` with the exception message). -/
def Provider : Type := ℝ → ℝ → String → ℤ → Except String GraphRegion

/-- Model of `get_or_download_graph`: memory tier, then disk tier (promoting a hit
into the memory tier), then the provider (writing a successful build to
both tiers, re-raising a provider failure). -/
def get_or_download_graph (P : Provider) (st : CacheState) (lat lng : ℝ)
    (mode : String) (dist : ℤ) : Except String GraphRegion × CacheState :=
  match alookup (get_graph_key lat lng mode dist) st.mem with
  | some G => (.ok G, st)
  | none =>
    match alookup (get_graph_key lat lng mode dist) st.disk with
    | some G => (.ok G, { st with mem := (get_graph_key lat lng mode dist, G) :: st.mem })
    | none =>
      match P lat lng (get_network_type mode) dist with
      | .ok G =>
        (.ok G, { st with
          mem := (get_graph_key lat lng mode dist, G) :: st.mem,
          disk := (get_graph_key lat lng mode dist, G) :: st.disk,
          calls := st.calls + 1 })
      | .error e => (.error e, { st with calls := st.calls + 1 })

/-- The cache-consulting phase of `get_or_download_graph` (everything before
the provider call), split out to discuss interleaved executions. -/
def acquire_check (st : CacheState) (k : CacheKey) : Option GraphRegion × CacheState :=
  match alookup k st.mem with
  | some G => (some G, st)
  | none =>
    match alookup k st.disk with
    | some G => (some G, { st with mem := (k, G) :: st.mem })
    | none => (none, st)

/-- The provider-invoking phase of `get_or_download_graph` (the download,
annotation and double cache write), split out to discuss interleaved
executions. -/
def acquire_download (P : Provider) (st : CacheState) (lat lng : ℝ)
    (mode : String) (dist : ℤ) : Except String GraphRegion × CacheState :=
  match P lat lng (get_network_type mode) dist with
  | .ok G =>
    (.ok G, { st with
      mem := (get_graph_key lat lng mode dist, G) :: st.mem,
      disk := (get_graph_key lat lng mode dist, G) :: st.disk,
      calls := st.calls + 1 })
  | .error e => (.error e, { st with calls := st.calls + 1 })

/-- Result signal of one `ox.shortest_path` call as the source
distinguishes it: a raised `networkx.NetworkXNoPath`, any other raised
exception, or a normal return (`None` or a node list). -/
inductive SPOutcome where
  | noPathExc : SPOutcome
  | exc : String → SPOutcome
  | ret : Option (List ℕ) → SPOutcome

/-- Result signal of the `route_to_gdf(...)["travel_time"].sum()` call as
the source distinguishes it: a raised `KeyError`, any other raised
exception, or a value. -/
inductive TimeOutcome where
  | keyErr : TimeOutcome
  | exc : String → TimeOutcome
  | ok : ℝ → TimeOutcome

/-- The external capabilities consulted by `calculate_route` on one graph:
nearest-node lookup (may raise), shortest-path search per weight name,
per-edge length and travel-time summation over a found route, and node
coordinates for rendering. -/
structure CalcEnv where
  nearest : Coordinates → Except String ℕ
  sp : ℕ → ℕ → String → SPOutcome
  lengthSum : List ℕ → Except String ℝ
  timeSum : List ℕ → TimeOutcome
  nodeCoord : ℕ → ℝ × ℝ

/-- Non-negativity of the external edge-attribute sums (edge lengths and
travel times are physical quantities). -/
def CalcEnv.sums_nonneg (e : CalcEnv) : Prop :=
  (∀ r v, e.lengthSum r = .ok v → 0 ≤ v) ∧
    (∀ r t, e.timeSum r = TimeOutcome.ok t → 0 ≤ t)

/-- A failed `RouteResponse` as built by `calculate_route`'s failure paths. -/
def routeFailure (mode msg : String) : RouteResponse :=
  { distance_km := 0, duration_minutes := 0, mode := mode,
    path_coordinates := none, success := false, error := some msg }

/-- The source's inner `try/except nx.NetworkXNoPath` around the two
`ox.shortest_path` calls: a `NetworkXNoPath` raised by the travel-time
search triggers one retry weighted by length; any other exception — and a
`NetworkXNoPath` raised by the retry itself — propagates to the outer
handler (`Except.error`). -/
def spResolve (e : CalcEnv) (orig_node dest_node : ℕ) : Except String (Option (List ℕ)) :=
  match e.sp orig_node dest_node "travel_time" with
  | .noPathExc =>
    match e.sp orig_node dest_node "length" with
    | .noPathExc => .error "NetworkXNoPath"
    | .exc msg => .error msg
    | .ret r => .ok r
  | .exc msg => .error msg
  | .ret r => .ok r

/-- Model of `calculate_route`: nearest nodes, shortest path with the travel-time /
length weight fallback, `None` check, length summation, travel-time
summation with the `KeyError` speed-estimate fallback, path coordinates.
Every raised exception is caught by the outer handler and converted into a
failed `RouteResponse` carrying the message. -/
def calculate_route (e : CalcEnv) (origin destination : Coordinates)
    (mode : String) : RouteResponse :=
  match e.nearest origin with
  | .error msg => routeFailure mode msg
  | .ok orig_node =>
    match e.nearest destination with
    | .error msg => routeFailure mode msg
    | .ok dest_node =>
      match spResolve e orig_node dest_node with
      | .error msg => routeFailure mode msg
      | .ok none => routeFailure mode "No path found between points"
      | .ok (some route) =>
        match e.lengthSum route with
        | .error msg => routeFailure mode msg
        | .ok edge_lengths =>
          match e.timeSum route with
          | TimeOutcome.exc msg => routeFailure mode msg
          | TimeOutcome.keyErr =>
            { distance_km := round2 (edge_lengths / 1000),
              duration_minutes := round1 ((edge_lengths / 1000 / get_speed_kmh mode) * 60),
              mode := mode,
              path_coordinates := some (route.map e.nodeCoord),
              success := true, error := none }
          | TimeOutcome.ok edge_times =>
            { distance_km := round2 (edge_lengths / 1000),
              duration_minutes := round1 (edge_times / 60),
              mode := mode,
              path_coordinates := some (route.map e.nodeCoord),
              success := true, error := none }

/-- The geometric fallback response as a function of the already-computed
direct (haversine) distance: road factor 1.4, mode speed, rounding, with
`success=True` and the given annotation message. -/
def fallback_from_km (direct_km : ℝ) (mode msg : String) : RouteResponse :=
  { distance_km := round2 (direct_km * 1.4),
    duration_minutes := round1 ((direct_km * 1.4) / get_speed_kmh mode * 60),
    mode := mode, path_coordinates := none,
    success := true, error := some msg }

/-- The geometric fallback response for an origin/destination pair. -/
def fallback_response (origin destination : Coordinates) (mode msg : String) : RouteResponse :=
  fallback_from_km (haversine_distance origin destination) mode msg

/-- The graph search radius computed by `calculate_single_route`:
`min(max(int(direct_distance * 1500), 5000), 50000)`. -/
def graph_radius (direct_distance : ℝ) : ℤ :=
  min (max (float_to_int (direct_distance * 1500)) 5000) 50000

/-- Model of `calculate_single_route` (`POST /route`): midpoint, radius, graph
acquisition, route calculation; a raised acquisition failure or a failed
route calculation is converted into the geometric fallback with
`success=True` and a fallback annotation. -/
def calculate_single_route (P : Provider) (env : GraphRegion → CalcEnv)
    (st : CacheState) (req : RouteRequest) : RouteResponse × CacheState :=
  match get_or_download_graph P st ((req.origin.lat + req.destination.lat) / 2)
      ((req.origin.lng + req.destination.lng) / 2) req.mode
      (graph_radius (haversine_distance req.origin req.destination)) with
  | (.error e, st') =>
    (fallback_response req.origin req.destination req.mode ("Used fallback: " ++ e), st')
  | (.ok G, st') =>
    if (calculate_route (env G) req.origin req.destination req.mode).success then
      (calculate_route (env G) req.origin req.destination req.mode, st')
    else
      (fallback_response req.origin req.destination req.mode "Used fallback calculation", st')

/-- The loop body of `calculate_batch_routes`: resolve each request in
order through `calculate_single_route` (threading the cache state), append
the result, and accumulate distance/duration over results whose `success`
flag is true.  Returns (results, distance sum, duration sum, final state). -/
def batch_go (P : Provider) (env : GraphRegion → CalcEnv) :
    CacheState → List RouteRequest → List RouteResponse × ℝ × ℝ × CacheState
  | st, [] => ([], 0, 0, st)
  | st, r :: rest =>
    let p := calculate_single_route P env st r
    let q := batch_go P env p.2 rest
    (p.1 :: q.1,
      (if p.1.success then p.1.distance_km else 0) + q.2.1,
      (if p.1.success then p.1.duration_minutes else 0) + q.2.2.1,
      q.2.2.2)

/-- Model of `calculate_batch_routes` (`POST /routes/batch`): run the loop, then
round the accumulated totals. -/
def calculate_batch_routes (P : Provider) (env : GraphRegion → CalcEnv)
    (st : CacheState) (reqs : List RouteRequest) : BatchRouteResponse × CacheState :=
  ({ routes := (batch_go P env st reqs).1,
     total_distance_km := round2 (batch_go P env st reqs).2.1,
     total_duration_minutes := round1 (batch_go P env st reqs).2.2.1 },
   (batch_go P env st reqs).2.2.2)

/-- Order-preserving resolution sequence: the i-th element is the result of
resolving the i-th request against the state left by the first i-1
resolutions.  Used to state the batch ordering property. -/
def mapState {α β σ : Type} (f : σ → α → β × σ) : σ → List α → List β
  | _, [] => []
  | st, a :: rest => (f st a).1 :: mapState f (f st a).2 rest

/-- Sum of `distance_km` over the responses whose `success` flag is true. -/
def successDistSum (rs : List RouteResponse) : ℝ :=
  ((rs.filter fun r => r.success).map fun r => r.distance_km).sum

/-- Sum of `duration_minutes` over the responses whose `success` flag is true. -/
def successDurSum (rs : List RouteResponse) : ℝ :=
  ((rs.filter fun r => r.success).map fun r => r.duration_minutes).sum

/-- The spec's radius formula read literally: the real-valued clamp of
`distance_km * 1500` to `[5000, 50000]`, with no integer truncation. -/
def radius_spec_formula (direct_distance : ℝ) : ℝ :=
  min (max (direct_distance * 1500) 5000) 50000

/-- Empty cache state. -/
def st0 : CacheState := { mem := [], disk := [], calls := 0 }

/-- A provider that always fails. -/
def failProvider : Provider := fun _ _ _ _ => .error "provider down"

/-- A provider that always succeeds with graph 7. -/
def okProvider : Provider := fun _ _ _ _ => .ok ⟨7⟩

/-- An environment whose external calls all fail (used to drive the façade
into its fallback path on concrete inputs). -/
def failEnv : GraphRegion → CalcEnv := fun _ =>
  { nearest := fun _ => .error "no graph",
    sp := fun _ _ _ => SPOutcome.exc "no graph",
    lengthSum := fun _ => .error "no graph",
    timeSum := fun _ => TimeOutcome.exc "no graph",
    nodeCoord := fun _ => (0, 0) }

/-- An environment in which the travel-time search reports no path by
returning `None` (as `ox.shortest_path` does) while a length-weighted path
exists. -/
def noneEnv : CalcEnv :=
  { nearest := fun _ => .ok 0,
    sp := fun _ _ w => if w = "travel_time" then SPOutcome.ret none else SPOutcome.ret (some [0, 1]),
    lengthSum := fun _ => .ok 1000,
    timeSum := fun _ => TimeOutcome.ok 60,
    nodeCoord := fun _ => (0, 0) }

/-- An environment in which the travel-time search reports no path by
raising `NetworkXNoPath` while a length-weighted path exists. -/
def excEnv : CalcEnv :=
  { nearest := fun _ => .ok 0,
    sp := fun _ _ w => if w = "travel_time" then SPOutcome.noPathExc else SPOutcome.ret (some [0, 1]),
    lengthSum := fun _ => .ok 1000,
    timeSum := fun _ => TimeOutcome.keyErr,
    nodeCoord := fun _ => (0, 0) }

/-- The cache state after one successful acquisition on empty caches. -/
def st1c : CacheState := (get_or_download_graph okProvider st0 0 0 "drive" 5000).2

/-- After `get_or_download_graph` returns a graph, that graph is present in
the memory tier under the request's key (it was a memory hit, was promoted
from disk, or was just downloaded and written). -/
theorem get_or_download_graph_ok_mem (P : Provider) (st : CacheState)
    (lat lng : ℝ) (mode : String) (dist : ℤ) (G : GraphRegion) (st1 : CacheState)
    (h : get_or_download_graph P st lat lng mode dist = (.ok G, st1)) :
    alookup (get_graph_key lat lng mode dist) st1.mem = some G := by
  unfold get_or_download_graph at h
  rcases h1 : alookup (get_graph_key lat lng mode dist) st.mem with _ | g
  · rcases h2 : alookup (get_graph_key lat lng mode dist) st.disk with _ | g
    · rcases h3 : P lat lng (get_network_type mode) dist with e | g
      · simp only [h1, h2, h3] at h
        simp at h
      · simp only [h1, h2, h3, Prod.mk.injEq, Except.ok.injEq] at h
        obtain ⟨hg, hst⟩ := h
        subst hg
        rw [← hst]
        simp [alookup]
    · simp only [h1, h2, Prod.mk.injEq, Except.ok.injEq] at h
      obtain ⟨hg, hst⟩ := h
      subst hg
      rw [← hst]
      simp [alookup]
  · simp only [h1, Prod.mk.injEq, Except.ok.injEq] at h
    obtain ⟨hg, hst⟩ := h
    subst hg
    rw [← hst]
    exact h1

/-- C3: two acquisitions whose coordinates round to the same 2-decimal cell
and that share mode and radius produce the same `CacheKey`, and once the
first acquisition has returned a region, the second returns that very
region from cache, leaving the state (in particular the provider-call
counter) untouched — the region is not built twice. -/
theorem same_cell_same_key_same_region
    (lat1 lng1 lat2 lng2 : ℝ) (mode : String) (dist : ℤ) (P : Provider)
    (st st1 : CacheState) (G : GraphRegion)
    (hlat : pyround (lat1 * 100) = pyround (lat2 * 100))
    (hlng : pyround (lng1 * 100) = pyround (lng2 * 100))
    (hfirst : get_or_download_graph P st lat1 lng1 mode dist = (.ok G, st1)) :
    get_graph_key lat1 lng1 mode dist = get_graph_key lat2 lng2 mode dist ∧
      get_or_download_graph P st1 lat2 lng2 mode dist = (.ok G, st1) := by
  have hkey : get_graph_key lat1 lng1 mode dist = get_graph_key lat2 lng2 mode dist := by
    unfold get_graph_key
    rw [hlat, hlng]
  refine ⟨hkey, ?_⟩
  have hmem := get_or_download_graph_ok_mem P st lat1 lng1 mode dist G st1 hfirst
  rw [hkey] at hmem
  unfold get_or_download_graph
  rw [hmem]

/-- Witness for C3 at a concrete input: both requests at (0, 0), mode
drive, radius 5000, against an initially empty cache. -/
theorem same_cell_same_key_same_region_witness :
    (pyround ((0 : ℝ) * 100) = pyround ((0 : ℝ) * 100) ∧
      pyround ((0 : ℝ) * 100) = pyround ((0 : ℝ) * 100) ∧
      get_or_download_graph okProvider st0 0 0 "drive" 5000 = (.ok ⟨7⟩, st1c)) ∧
    (get_graph_key 0 0 "drive" 5000 = get_graph_key 0 0 "drive" 5000 ∧
      get_or_download_graph okProvider st1c 0 0 "drive" 5000 = (.ok ⟨7⟩, st1c)) :=
  ⟨⟨rfl, rfl, rfl⟩,
    same_cell_same_key_same_region 0 0 0 0 "drive" 5000 okProvider st0 st1c ⟨7⟩ rfl rfl rfl⟩

/-- C8: when the provider invocation inside `get_or_download_graph` fails on
a double cache miss, the failure is re-raised to the caller and neither the
memory tier nor the disk tier is modified. -/
theorem provider_failure_leaves_caches_unchanged
    (P : Provider) (st : CacheState) (lat lng : ℝ) (mode : String) (dist : ℤ) (e : String)
    (hmem : alookup (get_graph_key lat lng mode dist) st.mem = none)
    (hdisk : alookup (get_graph_key lat lng mode dist) st.disk = none)
    (hp : P lat lng (get_network_type mode) dist = .error e) :
    (get_or_download_graph P st lat lng mode dist).1 = .error e ∧
      (get_or_download_graph P st lat lng mode dist).2.mem = st.mem ∧
      (get_or_download_graph P st lat lng mode dist).2.disk = st.disk := by
  unfold get_or_download_graph
  rw [hmem, hdisk, hp]
  exact ⟨rfl, rfl, rfl⟩

/-- Witness for C8: an always-failing provider on an empty cache. -/
theorem provider_failure_leaves_caches_unchanged_witness :
    (alookup (get_graph_key 0 0 "drive" 5000) st0.mem = none ∧
      alookup (get_graph_key 0 0 "drive" 5000) st0.disk = none ∧
      failProvider 0 0 (get_network_type "drive") 5000 = .error "provider down") ∧
    ((get_or_download_graph failProvider st0 0 0 "drive" 5000).1 = .error "provider down" ∧
      (get_or_download_graph failProvider st0 0 0 "drive" 5000).2.mem = st0.mem ∧
      (get_or_download_graph failProvider st0 0 0 "drive" 5000).2.disk = st0.disk) :=
  ⟨⟨rfl, rfl, rfl⟩,
    provider_failure_leaves_caches_unchanged failProvider st0 0 0 "drive" 5000
      "provider down" rfl rfl rfl⟩

/-- The function `get_or_download_graph` is exactly the cache-consulting phase followed —
on a double miss — by the provider-invoking phase.  This ties the two-phase
decomposition used in the interleaving analysis to the source function. -/
theorem acquire_phase_decomposition (P : Provider) (st : CacheState)
    (lat lng : ℝ) (mode : String) (dist : ℤ) :
    get_or_download_graph P st lat lng mode dist =
      match acquire_check st (get_graph_key lat lng mode dist) with
      | (some G, st') => (.ok G, st')
      | (none, st') => acquire_download P st' lat lng mode dist := by
  unfold get_or_download_graph acquire_check acquire_download
  rcases h1 : alookup (get_graph_key lat lng mode dist) st.mem with _ | g
  · rcases h2 : alookup (get_graph_key lat lng mode dist) st.disk with _ | g
    · simp only [h1, h2]
    · simp only [h1, h2]
  · simp only [h1]

/-- C9 (failing execution): two concurrent acquisitions of the same key,
both scheduled to run their cache-consulting phase before either runs its
provider-invoking phase (the source has no single-flight guard preventing
this schedule), each observe a miss and each invoke the provider: two
provider calls for one key, where the build-once contract allows at most
one. -/
theorem concurrent_miss_double_download :
    (acquire_check st0 (get_graph_key 0 0 "drive" 5000)).1 = none ∧
      (acquire_check (acquire_check st0 (get_graph_key 0 0 "drive" 5000)).2
        (get_graph_key 0 0 "drive" 5000)).1 = none ∧
      ((acquire_download okProvider
          (acquire_download okProvider
            (acquire_check (acquire_check st0 (get_graph_key 0 0 "drive" 5000)).2
              (get_graph_key 0 0 "drive" 5000)).2
            0 0 "drive" 5000).2
          0 0 "drive" 5000).2).calls = 2 :=
  ⟨rfl, rfl, rfl⟩

/-- C7 (counterexample): the mode string "fly" is outside
{drive, walk, bike}, and a `RouteRequest` carrying it fails the pydantic
`Literal` validation — the request is rejected, contradicting the claim
that it is accepted and treated as drive. -/
theorem unknown_mode_rejected_counterexample :
    mode_ok "fly" = false ∧ "fly" ≠ "drive" ∧ "fly" ≠ "walk" ∧ "fly" ≠ "bike" := by
  refine ⟨rfl, ?_, ?_, ?_⟩ <;> decide

/-- C7 (amended): the helper lookups default any unknown mode string to the
drive network type and 40 km/h, but the `RouteRequest` model's `Literal`
annotation rejects such a mode, so a `/route` request carrying it never
reaches those helpers. -/
theorem unknown_mode_defaults_to_drive (m : String)
    (h1 : m ≠ "drive") (h2 : m ≠ "walk") (h3 : m ≠ "bike") :
    get_network_type m = "drive" ∧ get_speed_kmh m = 40 ∧ mode_ok m = false := by
  unfold get_network_type get_speed_kmh mode_ok
  simp [h1, h2, h3]

/-- Witness for C7's amended statement at the concrete mode "fly". -/
theorem unknown_mode_defaults_to_drive_witness :
    ("fly" ≠ "drive" ∧ "fly" ≠ "walk" ∧ "fly" ≠ "bike") ∧
      (get_network_type "fly" = "drive" ∧ get_speed_kmh "fly" = 40 ∧ mode_ok "fly" = false) :=
  ⟨⟨by decide, by decide, by decide⟩,
    unknown_mode_defaults_to_drive "fly" (by decide) (by decide) (by decide)⟩

/-- The modelled `math.atan2` is non-negative on non-negative arguments. -/
theorem atan2_nonneg (y x : ℝ) (hy : 0 ≤ y) (hx : 0 ≤ x) : 0 ≤ atan2 y x := by
  unfold atan2
  split_ifs with h1 h2 h3 h4
  · have hq : 0 ≤ y / x := div_nonneg hy (le_of_lt h1)
    have hm := Real.arctan_strictMono.monotone hq
    rwa [Real.arctan_zero] at hm
  all_goals linarith [Real.pi_pos]

/-- The haversine distance is non-negative. -/
theorem haversine_nonneg (o d : Coordinates) : 0 ≤ haversine_distance o d := by
  unfold haversine_distance
  have h := atan2_nonneg (Real.sqrt (hav_a o d)) (Real.sqrt (1 - hav_a o d))
    (Real.sqrt_nonneg _) (Real.sqrt_nonneg _)
  linarith

/-- C5, part 1: the haversine distance of a point to itself is zero. -/
theorem haversine_self (p : Coordinates) : haversine_distance p p = 0 := by
  have ha : hav_a p p = 0 := by
    unfold hav_a
    simp
  unfold haversine_distance
  rw [ha]
  rw [Real.sqrt_zero, show (1:ℝ) - 0 = 1 by norm_num, Real.sqrt_one]
  unfold atan2
  rw [if_pos one_pos]
  rw [show (0:ℝ) / 1 = 0 by norm_num, Real.arctan_zero]
  ring

/-- On the equator (`lat = 0`), the haversine formula reduces to Earth
radius times the longitude difference in radians (for eastward spans below
a half circle). -/
theorem haversine_equator (l1 l2 : ℝ) (hpos : 0 < l2 - l1)
    (hlt : (l2 - l1) * Real.pi / 360 < Real.pi / 2) :
    haversine_distance ⟨0, l1⟩ ⟨0, l2⟩ = 6371 * ((l2 - l1) * Real.pi / 180) := by
  set θ := (l2 - l1) * Real.pi / 360 with hθ
  have hθpos : 0 < θ := by
    rw [hθ]
    have := Real.pi_pos
    positivity
  have hθlt : θ < Real.pi / 2 := hlt
  have hsin : 0 < Real.sin θ :=
    Real.sin_pos_of_pos_of_lt_pi hθpos (lt_trans hθlt (by linarith [Real.pi_pos]))
  have hcos : 0 < Real.cos θ :=
    Real.cos_pos_of_mem_Ioo ⟨by linarith [Real.pi_pos], hθlt⟩
  have ha : hav_a ⟨0, l1⟩ ⟨0, l2⟩ = Real.sin θ ^ 2 := by
    simp only [hav_a, radians]
    rw [show ((0:ℝ) * Real.pi / 180 - 0 * Real.pi / 180) / 2 = 0 by ring]
    rw [show (0:ℝ) * Real.pi / 180 = 0 by ring]
    rw [Real.sin_zero, Real.cos_zero]
    rw [show (l2 * Real.pi / 180 - l1 * Real.pi / 180) / 2 = θ by rw [hθ]; ring]
    ring
  have h1a : 1 - hav_a ⟨0, l1⟩ ⟨0, l2⟩ = Real.cos θ ^ 2 := by
    rw [ha, Real.cos_sq']
  unfold haversine_distance
  rw [h1a, ha]
  rw [Real.sqrt_sq hsin.le, Real.sqrt_sq hcos.le]
  unfold atan2
  rw [if_pos hcos]
  rw [← Real.tan_eq_sin_div_cos]
  rw [Real.arctan_tan (by linarith [Real.pi_pos]) hθlt]
  rw [hθ]
  ring

/-- Rounding to nearest at a point whose half-offset sits strictly between
two integers. -/
theorem pyround_eq (x : ℝ) (n : ℤ) (h1 : (n : ℝ) ≤ x + 1 / 2) (h2 : x + 1 / 2 < n + 1) :
    pyround x = n := by
  unfold pyround
  rw [round_eq, Int.floor_eq_iff]
  exact ⟨h1, h2⟩

/-- Rounding to nearest preserves non-negativity. -/
theorem pyround_nonneg (x : ℝ) (hx : 0 ≤ x) : 0 ≤ pyround x := by
  unfold pyround
  rw [round_eq]
  exact Int.floor_nonneg.mpr (by linarith)

/-- Rounding via `round(x, 2)` preserves non-negativity. -/
theorem round2_nonneg (x : ℝ) (hx : 0 ≤ x) : 0 ≤ round2 x := by
  unfold round2
  have h := pyround_nonneg (x * 100) (by linarith)
  have : (0:ℝ) ≤ ((pyround (x * 100) : ℤ) : ℝ) := Int.cast_nonneg.mpr h
  linarith

/-- Rounding via `round(x, 1)` preserves non-negativity. -/
theorem round1_nonneg (x : ℝ) (hx : 0 ≤ x) : 0 ≤ round1 x := by
  unfold round1
  have h := pyround_nonneg (x * 10) (by linarith)
  have : (0:ℝ) ≤ ((pyround (x * 10) : ℤ) : ℝ) := Int.cast_nonneg.mpr h
  linarith

/-- C5: the geometric fallback estimator is correct on its reference
points: distance of a point to itself is 0; the quarter great circle from
(0,0) to (0,90) measures about 10007.5 km under Earth radius 6371; and the
walk-mode fallback duration for a 10 km direct distance is
`(10 * 1.4) / 5 * 60 = 168.0` minutes. -/
theorem haversine_fallback_correctness :
    (∀ p : Coordinates, haversine_distance p p = 0) ∧
      |haversine_distance ⟨0, 0⟩ ⟨0, 90⟩ - 10007.5| < 0.1 ∧
      (fallback_from_km 10 "walk" "Used fallback calculation").duration_minutes =
        10 * 1.4 / 5 * 60 ∧
      (10 * 1.4 / 5 * 60 : ℝ) = 168 := by
  refine ⟨haversine_self, ?_, ?_, by norm_num⟩
  · have hlt : ((90:ℝ) - 0) * Real.pi / 360 < Real.pi / 2 := by
      have := Real.pi_pos
      nlinarith
    have h := haversine_equator 0 90 (by norm_num) hlt
    rw [h]
    have h1 := Real.pi_gt_d6
    have h2 := Real.pi_lt_d6
    rw [abs_lt]
    constructor <;> nlinarith
  · have hs : get_speed_kmh "walk" = 5 := by simp [get_speed_kmh]
    simp only [fallback_from_km]
    rw [hs]
    rw [show ((10:ℝ) * 1.4) / 5 * 60 = 168 by norm_num]
    unfold round1
    rw [show ((168:ℝ) * 10) = 1680 by norm_num]
    rw [pyround_eq 1680 1680 (by norm_num) (by norm_num)]
    norm_num

/-- C4 (counterexample): for the pair (0,0) → (0,0.09) the direct distance
is `6371 * 0.09 * π / 180` km, so `distance * 1500 = 4778.25 * π` lies
strictly between 15011 and 15012; the code's radius is the truncation
15011, which differs from the spec formula's un-truncated clamp value
`4778.25 * π`. -/
theorem radius_formula_counterexample :
    ((graph_radius (haversine_distance ⟨0, 0⟩ ⟨0, 0.09⟩) : ℤ) : ℝ) ≠
      radius_spec_formula (haversine_distance ⟨0, 0⟩ ⟨0, 0.09⟩) := by
  have hlt : ((0.09:ℝ) - 0) * Real.pi / 360 < Real.pi / 2 := by
    have := Real.pi_pos
    nlinarith
  have hd := haversine_equator 0 0.09 (by norm_num) hlt
  have h1 := Real.pi_gt_d6
  have h2 := Real.pi_lt_d6
  have hb1 : (15011:ℝ) < haversine_distance ⟨0, 0⟩ ⟨0, 0.09⟩ * 1500 := by
    rw [hd]; nlinarith
  have hb2 : haversine_distance ⟨0, 0⟩ ⟨0, 0.09⟩ * 1500 < 15012 := by
    rw [hd]; nlinarith
  have hfi : float_to_int (haversine_distance ⟨0, 0⟩ ⟨0, 0.09⟩ * 1500) = 15011 := by
    unfold float_to_int
    rw [if_pos (by linarith : (0:ℝ) ≤ haversine_distance ⟨0, 0⟩ ⟨0, 0.09⟩ * 1500)]
    rw [Int.floor_eq_iff]
    constructor
    · push_cast; linarith
    · push_cast; linarith
  have hgr : graph_radius (haversine_distance ⟨0, 0⟩ ⟨0, 0.09⟩) = 15011 := by
    unfold graph_radius
    rw [hfi]
    decide
  rw [hgr]
  unfold radius_spec_formula
  have hmax : max (haversine_distance ⟨0, 0⟩ ⟨0, 0.09⟩ * 1500) 5000 =
      haversine_distance ⟨0, 0⟩ ⟨0, 0.09⟩ * 1500 := max_eq_left (by linarith)
  rw [hmax, min_eq_left (by linarith)]
  push_cast
  intro hEq
  linarith

/-- C4 (amended): the radius computed by the resolution entry point equals
the clamp of the integer truncation of `direct_distance * 1500` to
[5000, 50000], and in particular always lies in [5000, 50000] meters. -/
theorem graph_radius_bounds (o d : Coordinates) :
    graph_radius (haversine_distance o d) =
      min (max (float_to_int (haversine_distance o d * 1500)) 5000) 50000 ∧
      5000 ≤ graph_radius (haversine_distance o d) ∧
      graph_radius (haversine_distance o d) ≤ 50000 := by
  refine ⟨rfl, ?_, ?_⟩
  · unfold graph_radius
    exact le_min (le_max_right _ _) (by norm_num)
  · unfold graph_radius
    exact min_le_right _ _

/-- String append is associative. -/
theorem string_append_assoc (a b c : String) : a ++ b ++ c = a ++ (b ++ c) := by
  rcases a with ⟨la⟩
  rcases b with ⟨lb⟩
  rcases c with ⟨lc⟩
  show String.append (String.append ⟨la⟩ ⟨lb⟩) ⟨lc⟩ = String.append ⟨la⟩ (String.append ⟨lb⟩ ⟨lc⟩)
  simp only [String.append]
  rw [List.append_assoc]

/-- Every mode speed in the table (including the default) is positive. -/
theorem get_speed_kmh_pos (m : String) : 0 < get_speed_kmh m := by
  unfold get_speed_kmh
  split_ifs <;> norm_num

/-- The geometric fallback response always reports success with
non-negative distance and duration. -/
theorem fallback_response_ok (o d : Coordinates) (m msg : String) :
    (fallback_response o d m msg).success = true ∧
      0 ≤ (fallback_response o d m msg).distance_km ∧
      0 ≤ (fallback_response o d m msg).duration_minutes := by
  have h0 := haversine_nonneg o d
  have hsp := get_speed_kmh_pos m
  unfold fallback_response fallback_from_km
  refine ⟨rfl, ?_, ?_⟩
  · exact round2_nonneg _ (by nlinarith)
  · apply round1_nonneg
    have h14 : 0 ≤ haversine_distance o d * 1.4 := by nlinarith
    exact mul_nonneg (div_nonneg h14 hsp.le) (by norm_num)

/-- The fallback response carries exactly the given annotation message. -/
theorem fallback_response_error (o d : Coordinates) (m msg : String) :
    (fallback_response o d m msg).error = some msg := rfl

/-- The calculator `calculate_route` never produces a negative distance or duration,
given that the external edge sums are non-negative. -/
theorem calculate_route_nonneg (e : CalcEnv) (o d : Coordinates) (m : String)
    (hL : ∀ r v, e.lengthSum r = .ok v → 0 ≤ v)
    (hT : ∀ r t, e.timeSum r = TimeOutcome.ok t → 0 ≤ t) :
    0 ≤ (calculate_route e o d m).distance_km ∧
      0 ≤ (calculate_route e o d m).duration_minutes := by
  have hsp := get_speed_kmh_pos m
  unfold calculate_route
  rcases hn1 : e.nearest o with msg | n1
  · simp [routeFailure]
  · simp only
    rcases hn2 : e.nearest d with msg | n2
    · simp [routeFailure]
    · simp only
      rcases hspr : spResolve e n1 n2 with msg | r
      · simp [routeFailure]
      · rcases r with _ | route
        · simp [routeFailure]
        · simp only
          rcases hls : e.lengthSum route with msg | L
          · simp [routeFailure]
          · have hLnn : 0 ≤ L := hL route L hls
            simp only
            rcases hts : e.timeSum route with _ | msg | t
            · refine ⟨round2_nonneg _ (by positivity), round1_nonneg _ ?_⟩
              exact mul_nonneg (div_nonneg (by positivity) hsp.le) (by norm_num)
            · simp [routeFailure]
            · have htnn : 0 ≤ t := hT route t hts
              exact ⟨round2_nonneg _ (by positivity), round1_nonneg _ (by positivity)⟩

/-- A successful `calculate_route` result carries no error annotation. -/
theorem calculate_route_success_error (e : CalcEnv) (o d : Coordinates) (m : String)
    (h : (calculate_route e o d m).success = true) :
    (calculate_route e o d m).error = none := by
  revert h
  unfold calculate_route
  split
  · intro h; simp [routeFailure] at h
  · split
    · intro h; simp [routeFailure] at h
    · split
      · intro h; simp [routeFailure] at h
      · intro h; simp [routeFailure] at h
      · split
        · intro h; simp [routeFailure] at h
        · split
          · intro h; simp [routeFailure] at h
          · intro _; rfl
          · intro _; rfl

/-- C2 (counterexample): when the travel-time search reports "no path" by
returning `None` — which is how `ox.shortest_path` signals it — the route
calculator returns a failed result without consulting the length weighting,
even though a length-weighted path exists. -/
theorem weight_fallback_skipped_on_none_return :
    noneEnv.sp 0 0 "travel_time" = SPOutcome.ret none ∧
      noneEnv.sp 0 0 "length" = SPOutcome.ret (some [0, 1]) ∧
      (calculate_route noneEnv ⟨0, 0⟩ ⟨0, 1⟩ "drive").success = false ∧
      (calculate_route noneEnv ⟨0, 0⟩ ⟨0, 1⟩ "drive").error =
        some "No path found between points" := by
  refine ⟨?_, ?_, ?_, ?_⟩ <;> rfl

/-- C2 (amended): when the travel-time search signals "no path" by raising
`NetworkXNoPath`, and the length-weighted retry finds a path whose length
summation succeeds and whose travel-time summation raises nothing but
possibly `KeyError`, the route calculator returns that path as a
successful result. -/
theorem weight_fallback_on_no_path_exception (e : CalcEnv) (o d : Coordinates)
    (m : String) (n1 n2 : ℕ) (p : List ℕ) (L : ℝ)
    (h1 : e.nearest o = .ok n1) (h2 : e.nearest d = .ok n2)
    (h3 : e.sp n1 n2 "travel_time" = SPOutcome.noPathExc)
    (h4 : e.sp n1 n2 "length" = SPOutcome.ret (some p))
    (h5 : e.lengthSum p = .ok L)
    (h6 : ∀ msg, e.timeSum p ≠ TimeOutcome.exc msg) :
    (calculate_route e o d m).success = true ∧
      (calculate_route e o d m).path_coordinates = some (p.map e.nodeCoord) := by
  have hspr : spResolve e n1 n2 = .ok (some p) := by
    unfold spResolve
    rw [h3, h4]
  unfold calculate_route
  simp only [h1, h2, hspr, h5]
  rcases hts : e.timeSum p with _ | msg | t
  · exact ⟨rfl, rfl⟩
  · exact absurd hts (h6 msg)
  · exact ⟨rfl, rfl⟩

/-- Witness for C2's amended statement: a concrete environment whose
travel-time search raises `NetworkXNoPath` and whose length search returns
the path [0, 1]. -/
theorem weight_fallback_on_no_path_exception_witness :
    (excEnv.nearest ⟨0, 0⟩ = .ok 0 ∧ excEnv.nearest ⟨0, 1⟩ = .ok 0 ∧
      excEnv.sp 0 0 "travel_time" = SPOutcome.noPathExc ∧
      excEnv.sp 0 0 "length" = SPOutcome.ret (some [0, 1]) ∧
      excEnv.lengthSum [0, 1] = .ok 1000 ∧
      (∀ msg, excEnv.timeSum [0, 1] ≠ TimeOutcome.exc msg)) ∧
    ((calculate_route excEnv ⟨0, 0⟩ ⟨0, 1⟩ "drive").success = true ∧
      (calculate_route excEnv ⟨0, 0⟩ ⟨0, 1⟩ "drive").path_coordinates =
        some ([0, 1].map excEnv.nodeCoord)) :=
  ⟨⟨rfl, rfl, rfl, rfl, rfl, fun msg h => by simp [excEnv] at h⟩,
    weight_fallback_on_no_path_exception excEnv ⟨0, 0⟩ ⟨0, 1⟩ "drive" 0 0 [0, 1] 1000
      rfl rfl rfl rfl rfl (fun msg h => by simp [excEnv] at h)⟩

/-- C1: for valid coordinates (and physically sensible external edge sums)
the single-route entry point always returns success with non-negative
distance and duration; provider, graph and routing failures are absorbed
into the geometric fallback, never propagated. -/
theorem resolve_always_succeeds (P : Provider) (env : GraphRegion → CalcEnv)
    (st : CacheState) (req : RouteRequest)
    (ho : req.origin.valid) (hd : req.destination.valid)
    (henv : ∀ G, (env G).sums_nonneg) :
    (calculate_single_route P env st req).1.success = true ∧
      0 ≤ (calculate_single_route P env st req).1.distance_km ∧
      0 ≤ (calculate_single_route P env st req).1.duration_minutes := by
  unfold calculate_single_route
  rcases hacq : get_or_download_graph P st ((req.origin.lat + req.destination.lat) / 2)
      ((req.origin.lng + req.destination.lng) / 2) req.mode
      (graph_radius (haversine_distance req.origin req.destination)) with ⟨r, st'⟩
  rcases r with e | G
  · exact fallback_response_ok _ _ _ _
  · simp only
    by_cases hs : (calculate_route (env G) req.origin req.destination req.mode).success = true
    · rw [if_pos hs]
      exact ⟨hs, calculate_route_nonneg _ _ _ _ (henv G).1 (henv G).2⟩
    · rw [if_neg hs]
      exact fallback_response_ok _ _ _ _

/-- Witness for C1: request from (0,0) to (0,0), drive mode, a failing
provider and the all-failing environment. -/
theorem resolve_always_succeeds_witness :
    (Coordinates.valid ⟨0, 0⟩ ∧ (∀ G, (failEnv G).sums_nonneg)) ∧
      ((calculate_single_route failProvider failEnv st0 ⟨⟨0, 0⟩, ⟨0, 0⟩, "drive"⟩).1.success = true ∧
        0 ≤ (calculate_single_route failProvider failEnv st0 ⟨⟨0, 0⟩, ⟨0, 0⟩, "drive"⟩).1.distance_km ∧
        0 ≤ (calculate_single_route failProvider failEnv st0 ⟨⟨0, 0⟩, ⟨0, 0⟩, "drive"⟩).1.duration_minutes) :=
  ⟨⟨by norm_num [Coordinates.valid],
      fun G => ⟨fun r v h => by simp [failEnv] at h, fun r t h => by simp [failEnv] at h⟩⟩,
    resolve_always_succeeds failProvider failEnv st0 ⟨⟨0, 0⟩, ⟨0, 0⟩, "drive"⟩
      (by norm_num [Coordinates.valid]) (by norm_num [Coordinates.valid])
      (fun G => ⟨fun r v h => by simp [failEnv] at h, fun r t h => by simp [failEnv] at h⟩)⟩

/-- C10: a single-route response has `error = none` exactly when it is the
unmodified result of a successful graph-based route computation; every
fallback-produced response (always `success = true`) instead carries an
annotation beginning with "Used fallback". -/
theorem error_none_iff_graph_route (P : Provider) (env : GraphRegion → CalcEnv)
    (st : CacheState) (req : RouteRequest) :
    ((calculate_single_route P env st req).1.error = none ∨
      ∃ t, (calculate_single_route P env st req).1.error = some ("Used fallback" ++ t) ∧
        (calculate_single_route P env st req).1.success = true) ∧
      ((calculate_single_route P env st req).1.error = none ↔
        ∃ G,
          (get_or_download_graph P st ((req.origin.lat + req.destination.lat) / 2)
              ((req.origin.lng + req.destination.lng) / 2) req.mode
              (graph_radius (haversine_distance req.origin req.destination))).1 = .ok G ∧
            (calculate_route (env G) req.origin req.destination req.mode).success = true ∧
            (calculate_single_route P env st req).1 =
              calculate_route (env G) req.origin req.destination req.mode) := by
  unfold calculate_single_route
  rcases hacq : get_or_download_graph P st ((req.origin.lat + req.destination.lat) / 2)
      ((req.origin.lng + req.destination.lng) / 2) req.mode
      (graph_radius (haversine_distance req.origin req.destination)) with ⟨r, st'⟩
  rcases r with e | G
  · constructor
    · right
      refine ⟨": " ++ e, ?_, rfl⟩
      show some ("Used fallback: " ++ e) = some ("Used fallback" ++ (": " ++ e))
      rw [show "Used fallback: " = "Used fallback" ++ ": " by decide, string_append_assoc]
    · constructor
      · intro h
        simp [fallback_response, fallback_from_km] at h
      · rintro ⟨G, hG, -, -⟩
        simp at hG
  · simp only
    by_cases hs : (calculate_route (env G) req.origin req.destination req.mode).success = true
    · rw [if_pos hs]
      constructor
      · left
        exact calculate_route_success_error _ _ _ _ hs
      · constructor
        · intro _
          exact ⟨G, rfl, hs, rfl⟩
        · intro _
          exact calculate_route_success_error _ _ _ _ hs
    · rw [if_neg hs]
      constructor
      · right
        refine ⟨" calculation", ?_, rfl⟩
        show some "Used fallback calculation" = some ("Used fallback" ++ " calculation")
        rw [show "Used fallback calculation" = "Used fallback" ++ " calculation" by decide]
      · constructor
        · intro h
          simp [fallback_response, fallback_from_km] at h
        · rintro ⟨G', hG', hsucc, -⟩
          have hGG : (Except.ok G : Except String GraphRegion) = Except.ok G' := hG'
          injection hGG with hG2
          subst hG2
          exact absurd hsucc hs

/-- Unfolding the success-filtered distance sum over a cons cell. -/
theorem successDistSum_cons (r : RouteResponse) (tl : List RouteResponse) :
    successDistSum (r :: tl) =
      (if r.success then r.distance_km else 0) + successDistSum tl := by
  unfold successDistSum
  rw [List.filter_cons]
  cases hr : r.success
  · simp
  · simp

/-- Unfolding the success-filtered duration sum over a cons cell. -/
theorem successDurSum_cons (r : RouteResponse) (tl : List RouteResponse) :
    successDurSum (r :: tl) =
      (if r.success then r.duration_minutes else 0) + successDurSum tl := by
  unfold successDurSum
  rw [List.filter_cons]
  cases hr : r.success
  · simp
  · simp

/-- The resolution sequence `mapState` preserves list length. -/
theorem mapState_length {α β σ : Type} (f : σ → α → β × σ) :
    ∀ (l : List α) (st : σ), (mapState f st l).length = l.length := by
  intro l
  induction l with
  | nil => intro st; rfl
  | cons a rest ih =>
    intro st
    simp only [mapState, List.length_cons]
    rw [ih]

/-- The batch loop yields the order-preserving resolution sequence, and its
running totals equal the success-filtered sums over that sequence. -/
theorem batch_go_spec (P : Provider) (env : GraphRegion → CalcEnv) :
    ∀ (reqs : List RouteRequest) (st : CacheState),
      (batch_go P env st reqs).1 =
        mapState (fun s r => calculate_single_route P env s r) st reqs ∧
      (batch_go P env st reqs).2.1 = successDistSum (batch_go P env st reqs).1 ∧
      (batch_go P env st reqs).2.2.1 = successDurSum (batch_go P env st reqs).1 := by
  intro reqs
  induction reqs with
  | nil =>
    intro st
    refine ⟨rfl, ?_, ?_⟩ <;> simp [batch_go, successDistSum, successDurSum]
  | cons r rest ih =>
    intro st
    obtain ⟨ih1, ih2, ih3⟩ := ih (calculate_single_route P env st r).2
    refine ⟨?_, ?_, ?_⟩
    · simp only [batch_go, mapState]
      rw [ih1]
    · simp only [batch_go]
      rw [successDistSum_cons, ih2]
    · simp only [batch_go]
      rw [successDurSum_cons, ih3]

/-- C6: the batch endpoint returns its routes in input order (the i-th
route resolves the i-th request against the state left by its
predecessors), and the reported totals are the rounded sums of distance
and duration over exactly the entries whose success flag is true. -/
theorem batch_order_and_totals (P : Provider) (env : GraphRegion → CalcEnv)
    (st : CacheState) (reqs : List RouteRequest) :
    (calculate_batch_routes P env st reqs).1.routes =
      mapState (fun s r => calculate_single_route P env s r) st reqs ∧
    (calculate_batch_routes P env st reqs).1.routes.length = reqs.length ∧
    (calculate_batch_routes P env st reqs).1.total_distance_km =
      round2 (successDistSum (calculate_batch_routes P env st reqs).1.routes) ∧
    (calculate_batch_routes P env st reqs).1.total_duration_minutes =
      round1 (successDurSum (calculate_batch_routes P env st reqs).1.routes) := by
  obtain ⟨h1, h2, h3⟩ := batch_go_spec P env reqs st
  refine ⟨?_, ?_, ?_, ?_⟩
  · simpa only [calculate_batch_routes] using h1
  · simp only [calculate_batch_routes]
    rw [h1, mapState_length]
  · simp only [calculate_batch_routes]
    rw [h2]
  · simp only [calculate_batch_routes]
    rw [h3]

end

end RoutingService
